import Mathlib

/-!
Shallow embedding of the HyperDbg driver shell (Driver.c) and, for the
components whose implementation files are not part of this excerpt, models
built from the specification's contracts (EPT manager, breakpoint engine,
event/hook registry).  The driver shell is embedded as pure state-passing
functions over an explicit `DriverState`; calls to external collaborators
(hypervisor initialization, pool-manager drain, logging notifications, IRP
completion) are recorded in an event trace, with their boolean/status
results supplied by an environment record.
-/

namespace HyperDbg

/-- NTSTATUS values that appear in Driver.c. -/
inductive NTSTATUS where
  | success
  | unsuccessful
  | accessDenied
  | invalidParameter
  | notImplemented
  | pending
  | insufficientResources
deriving DecidableEq, Repr, BEq

/-- The IOCTL control codes the dispatcher switches on; every other code
falls into the `default` arm, modelled by `unknown`. -/
inductive IoControlCode where
  | registerEvent
  | returnIrpPendingPacketsAndDisallowIoctl
  | terminateVmx
  | unknown
deriving DecidableEq, Repr, BEq

/-- The `Type` field of a `REGISTER_NOTIFY_BUFFER`: `IRP_BASED`,
`EVENT_BASED`, or anything else (the `default` arm). -/
inductive NotifyType where
  | irpBased
  | eventBased
  | other
deriving DecidableEq, Repr, BEq

/-- The parts of an IRP that Driver.c reads: the device-control input
buffer length, whether `AssociatedIrp.SystemBuffer` is non-NULL, the
notification type stored in that buffer, and the control code. -/
structure Irp where
  inputBufferLength : Nat
  systemBufferPresent : Bool
  registerEventType : NotifyType
  ioControlCode : IoControlCode
deriving DecidableEq, Repr, BEq

/-- Calls Driver.c makes into external collaborators, recorded in order.
`hvVmxInitialize` carries a snapshot of `g_GuestState` at the moment of the
call, so "zeroed before initialization" is expressible. -/
inductive Event where
  | poolManagerCheckAndPerformAllocation
  | hvVmxInitialize (guestStateAtCall : List Nat)
  | debuggerInitialize
  | hvTerminateVmx
  | logRegisterIrpBasedNotification
  | logRegisterEventBasedNotification
  | ioCompleteRequest (status : NTSTATUS)
deriving DecidableEq, Repr, BEq

/-- The driver's global mutable state: the single-handle flag, the
IOCTL-gate flag, and the per-processor guest-state array.  A
`VIRTUAL_MACHINE_STATE` is opaque to Driver.c, so each array slot is
modelled as a `Nat`; `RtlZeroMemory` over the array yields all-zero slots. -/
structure DriverState where
  g_HandleInUse : Bool
  g_AllowIOCTLFromUsermode : Bool
  g_GuestState : List Nat
deriving DecidableEq, Repr, BEq

/-- Results of the external calls `DrvCreate` makes:
`SeSinglePrivilegeCheck(SeDebugPrivilege, RequestorMode)`,
`HvVmxInitialize()`, `DebuggerInitialize()`, and
`KeQueryActiveProcessorCount(0)`. -/
structure CreateEnv where
  hasSeDebugPrivilege : Bool
  hvVmxInitializeOk : Bool
  debuggerInitializeOk : Bool
  activeProcessorCount : Nat
deriving DecidableEq, Repr, BEq

/-- Results of the external notification-registration calls the IOCTL
dispatcher can make. -/
structure DispatchEnv where
  logRegisterIrpStatus : NTSTATUS
  logRegisterEventStatus : NTSTATUS
deriving DecidableEq, Repr, BEq

/-- `SIZEOF_REGISTER_EVENT`, defined in an external header; only the
comparison `InputBufferLength < SIZEOF_REGISTER_EVENT` matters here. -/
def SIZEOF_REGISTER_EVENT : Nat := 4

/-- The tail of every handler: `IoCompleteRequest` runs unless the status
is `STATUS_PENDING`. -/
def completeEvents (st : NTSTATUS) : List Event :=
  if st = NTSTATUS.pending then [] else [Event.ioCompleteRequest st]

/-- `DrvCreate` (IRP_MJ_CREATE handler): privilege check, single-handle
check, set `g_AllowIOCTLFromUsermode`, zero `g_GuestState`, then
`HvVmxInitialize` and `DebuggerInitialize`; `g_HandleInUse` is set only
when both succeed.  Returns the NTSTATUS, the new driver state, and the
trace of external calls. -/
def DrvCreate (env : CreateEnv) (s : DriverState) :
    NTSTATUS × DriverState × List Event :=
  if !env.hasSeDebugPrivilege then
    (NTSTATUS.accessDenied, s, [Event.ioCompleteRequest NTSTATUS.accessDenied])
  else if s.g_HandleInUse then
    (NTSTATUS.unsuccessful, s, [Event.ioCompleteRequest NTSTATUS.unsuccessful])
  else
    let zeroed : List Nat := List.replicate env.activeProcessorCount 0
    let s1 : DriverState :=
      { s with g_AllowIOCTLFromUsermode := true, g_GuestState := zeroed }
    if env.hvVmxInitializeOk then
      if env.debuggerInitializeOk then
        (NTSTATUS.success,
         { s1 with g_HandleInUse := true },
         [Event.hvVmxInitialize zeroed, Event.debuggerInitialize,
          Event.ioCompleteRequest NTSTATUS.success])
      else
        (NTSTATUS.unsuccessful, s1,
         [Event.hvVmxInitialize zeroed, Event.debuggerInitialize,
          Event.ioCompleteRequest NTSTATUS.unsuccessful])
    else
      (NTSTATUS.unsuccessful, s1,
       [Event.hvVmxInitialize zeroed,
        Event.ioCompleteRequest NTSTATUS.unsuccessful])

/-- `DrvRead` (IRP_MJ_READ handler): logs a warning and completes with
success; no state change. -/
def DrvRead (s : DriverState) : NTSTATUS × DriverState × List Event :=
  (NTSTATUS.success, s, [Event.ioCompleteRequest NTSTATUS.success])

/-- `DrvWrite` (IRP_MJ_WRITE handler): logs a warning and completes with
success; no state change. -/
def DrvWrite (s : DriverState) : NTSTATUS × DriverState × List Event :=
  (NTSTATUS.success, s, [Event.ioCompleteRequest NTSTATUS.success])

/-- `DrvClose` (IRP_MJ_CLOSE handler): clears `g_HandleInUse` and
completes with success. -/
def DrvClose (s : DriverState) : NTSTATUS × DriverState × List Event :=
  (NTSTATUS.success,
   { s with g_HandleInUse := false },
   [Event.ioCompleteRequest NTSTATUS.success])

/-- `DrvUnsupported` (all other IRP_MJ_* handlers): logs a warning and
completes with success; no state change. -/
def DrvUnsupported (s : DriverState) : NTSTATUS × DriverState × List Event :=
  (NTSTATUS.success, s, [Event.ioCompleteRequest NTSTATUS.success])

/-- The body of the `switch` on the IOCTL control code in
`DrvDispatchIoControl` (reached only when `g_AllowIOCTLFromUsermode`):
computes the status, the updated state, and the collaborator calls the
chosen arm makes. -/
def dispatchSwitch (env : DispatchEnv) (irp : Irp) (s : DriverState) :
    NTSTATUS × DriverState × List Event :=
  match irp.ioControlCode with
  | IoControlCode.registerEvent =>
    if irp.inputBufferLength < SIZEOF_REGISTER_EVENT || !irp.systemBufferPresent then
      (NTSTATUS.invalidParameter, s, [])
    else
      match irp.registerEventType with
      | NotifyType.irpBased =>
        (env.logRegisterIrpStatus, s, [Event.logRegisterIrpBasedNotification])
      | NotifyType.eventBased =>
        (env.logRegisterEventStatus, s, [Event.logRegisterEventBasedNotification])
      | NotifyType.other =>
        (NTSTATUS.invalidParameter, s, [])
  | IoControlCode.returnIrpPendingPacketsAndDisallowIoctl =>
    (NTSTATUS.success, { s with g_AllowIOCTLFromUsermode := false }, [])
  | IoControlCode.terminateVmx =>
    (NTSTATUS.success, s, [Event.hvTerminateVmx])
  | IoControlCode.unknown =>
    (NTSTATUS.notImplemented, s, [])

/-- `DrvDispatchIoControl` (IRP_MJ_DEVICE_CONTROL handler): when
`g_AllowIOCTLFromUsermode` holds, first drains the pool manager
(`PoolManagerCheckAndPerformAllocation`) and then switches on the control
code; otherwise the IRP is completed with success and nothing runs.  The
IRP is completed whenever the status is not `STATUS_PENDING`. -/
def DrvDispatchIoControl (env : DispatchEnv) (irp : Irp) (s : DriverState) :
    NTSTATUS × DriverState × List Event :=
  if s.g_AllowIOCTLFromUsermode then
    let r := dispatchSwitch env irp s
    (r.1, r.2.1,
     Event.poolManagerCheckAndPerformAllocation :: r.2.2 ++ completeEvents r.1)
  else
    (NTSTATUS.success, s, completeEvents NTSTATUS.success)

/-- One entry point of the driver shell, together with the external inputs
it consumes; `apply` below runs it. -/
inductive DriverOp where
  | create (env : CreateEnv)
  | read
  | write
  | close
  | unsupported
  | deviceControl (env : DispatchEnv) (irp : Irp)
deriving DecidableEq, Repr, BEq

/-- Run one driver entry point on a driver state. -/
def DriverOp.apply : DriverOp → DriverState → NTSTATUS × DriverState × List Event
  | DriverOp.create env, s => DrvCreate env s
  | DriverOp.read, s => DrvRead s
  | DriverOp.write, s => DrvWrite s
  | DriverOp.close, s => DrvClose s
  | DriverOp.unsupported, s => DrvUnsupported s
  | DriverOp.deviceControl env irp, s => DrvDispatchIoControl env irp s

/-- Whether an operation is a `DrvCreate` invocation. -/
def DriverOp.isCreate : DriverOp → Bool
  | DriverOp.create _ => true
  | _ => false

/-- Whether an operation is a `DrvClose` invocation. -/
def DriverOp.isClose : DriverOp → Bool
  | DriverOp.close => true
  | _ => false

/-! Components whose implementation files are not in this excerpt, modelled
from the specification's contracts. -/

/-- Modelled from the spec: the result type of breakpoint-engine
operations; `ClearBreakpoint` on an address with no active breakpoint
"returns a typed not-found failure". -/
inductive BpResult where
  | ok
  | notFound
deriving DecidableEq, Repr, BEq

/-- Modelled from the spec: a `BreakpointDescriptor` — "target virtual
address, owning process context, original byte(s) replaced,
enabled/disabled state, hit-count". -/
structure BreakpointDescriptor where
  address : Nat
  owningProcess : Nat
  originalByte : Nat
  enabled : Bool
  hitCount : Nat
deriving DecidableEq, Repr, BEq

/-- Modelled from the spec: the breakpoint engine's state — guest memory
(bytes, addressed by virtual address) and the recorded breakpoint
descriptors. The implementation file of the Breakpoint & Stepping Engine
is not part of this excerpt. -/
structure BpEngineState where
  guestMemory : Nat → Nat
  breakpoints : List BreakpointDescriptor

/-- The trap-instruction byte written by a software breakpoint (int3). -/
def trapByte : Nat := 0xCC

/-- Modelled from the spec: `SetSoftwareBreakpoint(address)` "saves the
original instruction byte, writes a trap instruction, and records a
BreakpointDescriptor". -/
def SetSoftwareBreakpoint (address owningProcess : Nat) (s : BpEngineState) :
    BpResult × BpEngineState :=
  (BpResult.ok,
   { guestMemory := fun a => if a = address then trapByte else s.guestMemory a,
     breakpoints :=
       { address := address, owningProcess := owningProcess,
         originalByte := s.guestMemory address, enabled := true,
         hitCount := 0 } :: s.breakpoints })

/-- Modelled from the spec: `ClearBreakpoint(address)` "restores the
original byte"; on an address with no active breakpoint it "is a no-op and
returns a not-found result, never corrupts memory". -/
def ClearBreakpoint (address : Nat) (s : BpEngineState) :
    BpResult × BpEngineState :=
  match s.breakpoints.find? (fun d => d.address == address) with
  | none => (BpResult.notFound, s)
  | some d =>
    (BpResult.ok,
     { guestMemory := fun a => if a = address then d.originalByte else s.guestMemory a,
       breakpoints := s.breakpoints.filter (fun e => e.address != address) })

/-- Modelled from the spec: EPT access rights of one page entry
("execute/read/write trapping"). -/
structure AccessRights where
  readAccess : Bool
  writeAccess : Bool
  executeAccess : Bool
deriving DecidableEq, Repr, BEq

/-- Modelled from the spec: the hook mode of `HookPage` — "mode ∈
{ExecuteTrap, WriteTrap, ReadTrap}". -/
inductive HookMode where
  | executeTrap
  | writeTrap
  | readTrap
deriving DecidableEq, Repr, BEq

/-- Modelled from the spec: marking an entry "to trap the given access
type" disables the corresponding access. -/
def applyTrap (r : AccessRights) : HookMode → AccessRights
  | HookMode.executeTrap => { r with executeAccess := false }
  | HookMode.writeTrap => { r with writeAccess := false }
  | HookMode.readTrap => { r with readAccess := false }

/-- Modelled from the spec: the `EptPageTableHierarchy` — current access
rights per guest-physical page, plus the hierarchy's "saved state"
recording, for each hooked page, the access rights it had before the first
hook. The EPT Manager's implementation file is not part of this excerpt. -/
structure EptState where
  rights : Nat → AccessRights
  savedRights : List (Nat × AccessRights)

/-- The saved (pre-hook) rights of a page, if it is currently hooked. -/
def EptState.lookupSaved (s : EptState) (gpa : Nat) : Option AccessRights :=
  (s.savedRights.find? (fun p => p.1 == gpa)).map Prod.snd

/-- Modelled from the spec: `HookPage(guestPhysicalAddress, mode)` marks
the entry to trap the given access type; the rights that held before the
first hook are kept in the hierarchy's saved state. -/
def HookPage (gpa : Nat) (mode : HookMode) (s : EptState) : EptState :=
  { rights := fun a => if a = gpa then applyTrap (s.rights gpa) mode else s.rights a,
    savedRights :=
      match s.lookupSaved gpa with
      | some _ => s.savedRights
      | none => (gpa, s.rights gpa) :: s.savedRights }

/-- Modelled from the spec: `UnhookPage(guestPhysicalAddress)` "restores
the original mapping; must restore exactly the previous access rights
(verified via the EptPageTableHierarchy's saved state, not recomputed)". -/
def UnhookPage (gpa : Nat) (s : EptState) : EptState :=
  match s.lookupSaved gpa with
  | none => s
  | some orig =>
    { rights := fun a => if a = gpa then orig else s.rights a,
      savedRights := s.savedRights.filter (fun p => p.1 != gpa) }

/-- A call of the EPT manager on one fixed guest-physical address. -/
inductive EptOp where
  | hook (mode : HookMode)
  | unhook
deriving DecidableEq, Repr, BEq

/-- Run a sequence of `HookPage`/`UnhookPage` calls on one address. -/
def runEptOps (gpa : Nat) (ops : List EptOp) (s : EptState) : EptState :=
  ops.foldl
    (fun t op =>
      match op with
      | EptOp.hook m => HookPage gpa m t
      | EptOp.unhook => UnhookPage gpa t)
    s

/-- Modelled from the spec: an `EventHookEntry` condition — "exit reason +
qualifier, e.g. specific MSR index, CR number, I/O port". -/
structure HookCondition where
  exitReason : Nat
  qualifier : Nat
deriving DecidableEq, Repr, BEq

/-- Modelled from the spec: hook scope — "per logical-processor scope (or
global scope)". -/
inductive HookScope where
  | globalScope
  | processor (id : Nat)
deriving DecidableEq, Repr, BEq

/-- Modelled from the spec: a hook action — "(log, break, redirect)". -/
inductive HookAction where
  | log
  | breakToDebugger
  | redirect
deriving DecidableEq, Repr, BEq

/-- Modelled from the spec: an `EventHookEntry` of the Event/Hook
Registry. -/
structure EventHookEntry where
  hookId : Nat
  condition : HookCondition
  action : HookAction
  scope : HookScope
deriving DecidableEq, Repr, BEq

/-- Modelled from the spec: the Event/Hook Registry — its entries and the
next hook id to hand out. The registry's implementation file is not part
of this excerpt. -/
structure HookRegistry where
  entries : List EventHookEntry
  nextHookId : Nat
deriving DecidableEq, Repr, BEq

/-- The registry with no hooks registered. -/
def emptyRegistry : HookRegistry :=
  { entries := [], nextHookId := 0 }

/-- Whether the registry already holds an entry with this (condition,
scope) pair. -/
def HookRegistry.hasKey (r : HookRegistry) (cond : HookCondition)
    (scope : HookScope) : Bool :=
  r.entries.any (fun e => decide (e.condition = cond ∧ e.scope = scope))

/-- Modelled from the spec: `Register(condition, action, scope) -> hookId`;
"conflicting registrations (same condition, same scope) are rejected, not
merged". Returns `none` and leaves the registry unchanged on rejection. -/
def Register (cond : HookCondition) (action : HookAction)
    (scope : HookScope) (r : HookRegistry) : Option Nat × HookRegistry :=
  if r.hasKey cond scope then
    (none, r)
  else
    (some r.nextHookId,
     { entries :=
         { hookId := r.nextHookId, condition := cond, action := action,
           scope := scope } :: r.entries,
       nextHookId := r.nextHookId + 1 })

/-- Run a sequence of `Register` requests, ignoring the returned ids. -/
def runRegisters (reqs : List (HookCondition × HookAction × HookScope))
    (r : HookRegistry) : HookRegistry :=
  reqs.foldl (fun t q => (Register q.1 q.2.1 q.2.2 t).2) r

/-- "Exactly one entry per (condition, scope)": no two distinct entries of
the registry share their (condition, scope) pair. -/
def HookRegistry.uniquePerKey (r : HookRegistry) : Prop :=
  r.entries.Pairwise (fun a b => a.condition ≠ b.condition ∨ a.scope ≠ b.scope)

/-! Concrete sample inputs used by counterexamples and witnesses. -/

/-- A dispatch environment whose notification registrations succeed. -/
def sampleDispatchEnv : DispatchEnv :=
  { logRegisterIrpStatus := NTSTATUS.success,
    logRegisterEventStatus := NTSTATUS.success }

/-- An IRP carrying `IOCTL_TERMINATE_VMX`. -/
def irpTerminate : Irp :=
  { inputBufferLength := 16, systemBufferPresent := true,
    registerEventType := NotifyType.other,
    ioControlCode := IoControlCode.terminateVmx }

/-- A driver state in which IOCTLs are disallowed and no handle is open:
the state after a successful create, a disallow-IOCTL request, and a
close. -/
def stateDisallowed : DriverState :=
  { g_HandleInUse := false, g_AllowIOCTLFromUsermode := false,
    g_GuestState := [0] }

/-- A driver state with an open handle and IOCTLs allowed. -/
def stateHandleOpen : DriverState :=
  { g_HandleInUse := true, g_AllowIOCTLFromUsermode := true,
    g_GuestState := [0] }

/-- A create environment lacking `SeDebugPrivilege`. -/
def envNoPrivilege : CreateEnv :=
  { hasSeDebugPrivilege := false, hvVmxInitializeOk := true,
    debuggerInitializeOk := true, activeProcessorCount := 1 }

/-- A privileged create environment in which `HvVmxInitialize` fails. -/
def envHvInitFails : CreateEnv :=
  { hasSeDebugPrivilege := true, hvVmxInitializeOk := false,
    debuggerInitializeOk := true, activeProcessorCount := 1 }

/-- A privileged create environment in which both initializations
succeed. -/
def envAllOk : CreateEnv :=
  { hasSeDebugPrivilege := true, hvVmxInitializeOk := true,
    debuggerInitializeOk := true, activeProcessorCount := 2 }

/-! Claim C1. -/

/-- C1 (counterexample): the claim quantifies over every invocation of
`DrvDispatchIoControl`, but an invocation in a state where
`g_AllowIOCTLFromUsermode` is false does not call
`PoolManagerCheckAndPerformAllocation` at all (the drain appears zero
times in its trace). -/
theorem c1_counterexample :
    stateDisallowed.g_AllowIOCTLFromUsermode = false ∧
    ((DrvDispatchIoControl sampleDispatchEnv irpTerminate stateDisallowed).2.2).count
      Event.poolManagerCheckAndPerformAllocation = 0 := by
  decide

/-- C1 (amended): in every invocation of `DrvDispatchIoControl` made while
`g_AllowIOCTLFromUsermode` is true, `PoolManagerCheckAndPerformAllocation`
is the first external call of the invocation — it precedes the examination
of the control code and every call an IOCTL arm makes. -/
theorem c1_pool_drain_first_when_allowed (env : DispatchEnv) (irp : Irp)
    (s : DriverState) (h : s.g_AllowIOCTLFromUsermode = true) :
    ∃ rest, (DrvDispatchIoControl env irp s).2.2 =
      Event.poolManagerCheckAndPerformAllocation :: rest := by
  unfold DrvDispatchIoControl
  rw [h]
  exact ⟨_, rfl⟩

/-- C1 (witness): the amended theorem at a concrete allowed state. -/
theorem c1_pool_drain_first_when_allowed_witness :
    ∃ rest, (DrvDispatchIoControl sampleDispatchEnv irpTerminate stateHandleOpen).2.2 =
      Event.poolManagerCheckAndPerformAllocation :: rest :=
  c1_pool_drain_first_when_allowed sampleDispatchEnv irpTerminate stateHandleOpen rfl

/-- Helper: the IOCTL switch never touches `g_HandleInUse`. -/
theorem dispatchSwitch_preserves_handle (env : DispatchEnv) (irp : Irp)
    (s : DriverState) :
    ((dispatchSwitch env irp s).2.1).g_HandleInUse = s.g_HandleInUse := by
  obtain ⟨len, buf, nt, code⟩ := irp
  cases code with
  | registerEvent =>
    dsimp only [dispatchSwitch]
    split
    · rfl
    · cases nt <;> rfl
  | returnIrpPendingPacketsAndDisallowIoctl => rfl
  | terminateVmx => rfl
  | unknown => rfl

/-! Claim C2. -/

/-- C2 (counterexample): with `g_HandleInUse` true, a `DrvCreate` call by
a requestor lacking `SeDebugPrivilege` returns `STATUS_ACCESS_DENIED`, not
`STATUS_UNSUCCESSFUL` — the privilege check precedes the single-handle
check. -/
theorem c2_counterexample :
    stateHandleOpen.g_HandleInUse = true ∧
    (DrvCreate envNoPrivilege stateHandleOpen).1 ≠ NTSTATUS.unsuccessful := by
  decide

/-- C2 (amended): if `g_HandleInUse` is true, a further `DrvCreate` call
by a requestor holding `SeDebugPrivilege` returns `STATUS_UNSUCCESSFUL`,
leaves the driver state unchanged, and attempts no initialization (its
only external call is the IRP completion); and `g_HandleInUse` is cleared
only by `DrvClose`: every other entry point leaves it true. -/
theorem c2_single_handle_enforced :
    (∀ (env : CreateEnv) (s : DriverState),
      s.g_HandleInUse = true → env.hasSeDebugPrivilege = true →
      DrvCreate env s =
        (NTSTATUS.unsuccessful, s,
         [Event.ioCompleteRequest NTSTATUS.unsuccessful])) ∧
    (∀ (op : DriverOp) (s : DriverState),
      s.g_HandleInUse = true → op.isClose = false →
      ((op.apply s).2.1).g_HandleInUse = true) := by
  constructor
  · intro env s hIn hPriv
    unfold DrvCreate
    rw [hPriv, hIn]
    rfl
  · intro op s hIn hOp
    cases op with
    | create env =>
      obtain ⟨priv, hv, dbg, pc⟩ := env
      cases priv <;>
        simp [DriverOp.apply, DrvCreate, hIn]
    | read => exact hIn
    | write => exact hIn
    | close => simp [DriverOp.isClose] at hOp
    | unsupported => exact hIn
    | deviceControl env irp =>
      have h2 := dispatchSwitch_preserves_handle env irp s
      cases hAllow : s.g_AllowIOCTLFromUsermode with
      | false => simpa [DriverOp.apply, DrvDispatchIoControl, hAllow] using hIn
      | true =>
        simp only [DriverOp.apply, DrvDispatchIoControl, hAllow, if_true]
        rw [h2]
        exact hIn

/-- C2 (witness): the amended theorem's first conjunct at a concrete
handle-in-use state and privileged environment. -/
theorem c2_single_handle_enforced_witness :
    DrvCreate envAllOk stateHandleOpen =
      (NTSTATUS.unsuccessful, stateHandleOpen,
       [Event.ioCompleteRequest NTSTATUS.unsuccessful]) :=
  c2_single_handle_enforced.1 envAllOk stateHandleOpen rfl rfl

/-! Claim C3. -/

/-- C3: in every `DrvCreate` call, whenever `HvVmxInitialize` is invoked
the guest-state array passed to it is the fully zeroed array of length
`KeQueryActiveProcessorCount(0)` — the zeroing precedes the invocation;
and every call that reaches initialization (privileged requestor, no
handle in use) does invoke `HvVmxInitialize` on the zeroed array. -/
theorem c3_guest_state_zeroed_before_init :
    (∀ (env : CreateEnv) (s : DriverState) (gs : List Nat),
      Event.hvVmxInitialize gs ∈ (DrvCreate env s).2.2 →
      gs = List.replicate env.activeProcessorCount 0) ∧
    (∀ (env : CreateEnv) (s : DriverState),
      env.hasSeDebugPrivilege = true → s.g_HandleInUse = false →
      Event.hvVmxInitialize (List.replicate env.activeProcessorCount 0) ∈
        (DrvCreate env s).2.2) := by
  constructor
  · intro env s gs hmem
    obtain ⟨priv, hv, dbg, pc⟩ := env
    obtain ⟨handle, allow, gstate⟩ := s
    cases priv <;> cases handle <;> cases hv <;> cases dbg <;>
      simp [DrvCreate] at hmem <;> simp [hmem]
  · intro env s hPriv hFree
    obtain ⟨priv, hv, dbg, pc⟩ := env
    obtain ⟨handle, allow, gstate⟩ := s
    cases priv <;> cases handle <;> simp_all
    cases hv <;> cases dbg <;> simp [DrvCreate]

/-- C3 (witness): the theorem's second conjunct at a concrete privileged,
handle-free call. -/
theorem c3_guest_state_zeroed_before_init_witness :
    Event.hvVmxInitialize (List.replicate envAllOk.activeProcessorCount 0) ∈
      (DrvCreate envAllOk stateDisallowed).2.2 :=
  c3_guest_state_zeroed_before_init.2 envAllOk stateDisallowed rfl rfl

/-! Claim C4. -/

/-- C4: for every IOCTL dispatch carrying `IOCTL_TERMINATE_VMX` while
IOCTLs are allowed, `HvTerminateVmx` appears exactly once in the trace of
external calls and the dispatcher returns `STATUS_SUCCESS`. -/
theorem c4_terminate_vmx (env : DispatchEnv) (irp : Irp) (s : DriverState)
    (hAllow : s.g_AllowIOCTLFromUsermode = true)
    (hCode : irp.ioControlCode = IoControlCode.terminateVmx) :
    (DrvDispatchIoControl env irp s).1 = NTSTATUS.success ∧
    ((DrvDispatchIoControl env irp s).2.2).count Event.hvTerminateVmx = 1 := by
  obtain ⟨len, buf, nt, code⟩ := irp
  subst hCode
  simp only [DrvDispatchIoControl, dispatchSwitch, hAllow, if_true,
    completeEvents]
  exact ⟨by trivial, by decide⟩

/-- C4 (witness): the theorem at a concrete allowed state and terminate
IRP. -/
theorem c4_terminate_vmx_witness :
    (DrvDispatchIoControl sampleDispatchEnv irpTerminate stateHandleOpen).1 =
      NTSTATUS.success ∧
    ((DrvDispatchIoControl sampleDispatchEnv irpTerminate stateHandleOpen).2.2).count
      Event.hvTerminateVmx = 1 :=
  c4_terminate_vmx sampleDispatchEnv irpTerminate stateHandleOpen rfl rfl

/-! Claim C8. -/

/-- C8: a `DrvCreate` call by a requestor lacking `SeDebugPrivilege`
returns `STATUS_ACCESS_DENIED`, leaves the driver state (in particular
`g_HandleInUse`, `g_AllowIOCTLFromUsermode` and `g_GuestState`) unchanged,
and makes no external call besides completing the IRP — no initialization
is attempted. -/
theorem c8_access_denied_no_action (env : CreateEnv) (s : DriverState)
    (hPriv : env.hasSeDebugPrivilege = false) :
    DrvCreate env s =
      (NTSTATUS.accessDenied, s,
       [Event.ioCompleteRequest NTSTATUS.accessDenied]) := by
  unfold DrvCreate
  rw [hPriv]
  rfl

/-- C8 (witness): the theorem at a concrete unprivileged call. -/
theorem c8_access_denied_no_action_witness :
    DrvCreate envNoPrivilege stateHandleOpen =
      (NTSTATUS.accessDenied, stateHandleOpen,
       [Event.ioCompleteRequest NTSTATUS.accessDenied]) :=
  c8_access_denied_no_action envNoPrivilege stateHandleOpen rfl

/-! Claim C9. -/

/-- C9 (counterexample): after IOCTLs are disallowed, a `DrvCreate` call
that fails (`HvVmxInitialize` returns false, status
`STATUS_UNSUCCESSFUL`) nevertheless sets `g_AllowIOCTLFromUsermode` back
to true, and a subsequent `DrvDispatchIoControl` does run the pool drain —
so the no-op behaviour ends without any successful `DrvCreate`, contrary
to the claim's "until a successful DrvCreate re-enables IOCTLs". -/
theorem c9_counterexample :
    (DrvCreate envHvInitFails stateDisallowed).1 = NTSTATUS.unsuccessful ∧
    ((DrvCreate envHvInitFails stateDisallowed).2.1).g_AllowIOCTLFromUsermode
      = true ∧
    ((DrvDispatchIoControl sampleDispatchEnv irpTerminate
        (DrvCreate envHvInitFails stateDisallowed).2.1).2.2).count
      Event.poolManagerCheckAndPerformAllocation = 1 := by
  decide

/-- C9 (amended): while `g_AllowIOCTLFromUsermode` is false, every
`DrvDispatchIoControl` call returns `STATUS_SUCCESS` and performs no
operation — no IOCTL handler runs, the pool drain is not invoked, the
state is unchanged, and the only external call is the IRP completion; and
the flag stays false across every entry point except `DrvCreate` (a
`DrvCreate` that passes the privilege and single-handle checks re-enables
IOCTLs even if initialization then fails). -/
theorem c9_dispatch_noop_when_disallowed :
    (∀ (env : DispatchEnv) (irp : Irp) (s : DriverState),
      s.g_AllowIOCTLFromUsermode = false →
      DrvDispatchIoControl env irp s =
        (NTSTATUS.success, s, [Event.ioCompleteRequest NTSTATUS.success])) ∧
    (∀ (op : DriverOp) (s : DriverState),
      s.g_AllowIOCTLFromUsermode = false → op.isCreate = false →
      ((op.apply s).2.1).g_AllowIOCTLFromUsermode = false) := by
  constructor
  · intro env irp s hAllow
    unfold DrvDispatchIoControl
    rw [hAllow]
    rfl
  · intro op s hAllow hOp
    cases op with
    | create env => simp [DriverOp.isCreate] at hOp
    | read => exact hAllow
    | write => exact hAllow
    | close => exact hAllow
    | unsupported => exact hAllow
    | deviceControl env irp =>
      simp [DriverOp.apply, DrvDispatchIoControl, hAllow]

/-- C9 (witness): the amended theorem's first conjunct at a concrete
disallowed state. -/
theorem c9_dispatch_noop_when_disallowed_witness :
    DrvDispatchIoControl sampleDispatchEnv irpTerminate stateDisallowed =
      (NTSTATUS.success, stateDisallowed,
       [Event.ioCompleteRequest NTSTATUS.success]) :=
  c9_dispatch_noop_when_disallowed.1 sampleDispatchEnv irpTerminate
    stateDisallowed rfl

/-! Claim C10. -/

/-- C10: `g_HandleInUse` becomes true in `DrvCreate` only when both
`HvVmxInitialize` and `DebuggerInitialize` succeed (and the requestor is
privileged); and on a privileged, handle-free call in which either
initialization fails, `DrvCreate` returns `STATUS_UNSUCCESSFUL` with
`g_HandleInUse` still false while `g_AllowIOCTLFromUsermode` has been set
true. -/
theorem c10_handle_only_after_full_init :
    (∀ (env : CreateEnv) (s : DriverState),
      ((DrvCreate env s).2.1).g_HandleInUse = true →
      s.g_HandleInUse = true ∨
        (env.hasSeDebugPrivilege = true ∧ env.hvVmxInitializeOk = true ∧
         env.debuggerInitializeOk = true)) ∧
    (∀ (env : CreateEnv) (s : DriverState),
      env.hasSeDebugPrivilege = true → s.g_HandleInUse = false →
      ¬(env.hvVmxInitializeOk = true ∧ env.debuggerInitializeOk = true) →
      (DrvCreate env s).1 = NTSTATUS.unsuccessful ∧
      ((DrvCreate env s).2.1).g_HandleInUse = false ∧
      ((DrvCreate env s).2.1).g_AllowIOCTLFromUsermode = true) := by
  constructor
  · intro env s hSet
    obtain ⟨priv, hv, dbg, pc⟩ := env
    obtain ⟨handle, allow, gstate⟩ := s
    cases priv <;> cases handle <;> cases hv <;> cases dbg <;>
      simp_all [DrvCreate]
  · intro env s hPriv hFree hFail
    obtain ⟨priv, hv, dbg, pc⟩ := env
    obtain ⟨handle, allow, gstate⟩ := s
    cases priv <;> cases handle <;> cases hv <;> cases dbg <;>
      simp_all [DrvCreate]

/-- C10 (witness): the theorem's second conjunct at a concrete privileged
call whose hypervisor initialization fails. -/
theorem c10_handle_only_after_full_init_witness :
    (DrvCreate envHvInitFails stateDisallowed).1 = NTSTATUS.unsuccessful ∧
    ((DrvCreate envHvInitFails stateDisallowed).2.1).g_HandleInUse = false ∧
    ((DrvCreate envHvInitFails stateDisallowed).2.1).g_AllowIOCTLFromUsermode
      = true :=
  c10_handle_only_after_full_init.2 envHvInitFails stateDisallowed rfl rfl
    (by decide)

/-! Claim C5 (breakpoint engine, modelled from the spec). -/

/-- A sample breakpoint-engine state with no breakpoints recorded. -/
def bpSample : BpEngineState :=
  { guestMemory := fun _ => 0x90, breakpoints := [] }

/-- Helper: after filtering out every descriptor at `addr`, none is
found at `addr`. -/
theorem bp_find_filter (addr : Nat) (l : List BreakpointDescriptor) :
    ((l.filter (fun e => e.address != addr)).find?
      (fun d => d.address == addr)) = none := by
  rw [List.find?_eq_none]
  intro x hx
  rw [List.mem_filter] at hx
  simpa using hx.2

/-- Helper: after any `ClearBreakpoint addr`, no descriptor at `addr`
remains. -/
theorem clearBreakpoint_find_none (addr : Nat) (s : BpEngineState) :
    (((ClearBreakpoint addr s).2).breakpoints.find?
      (fun d => d.address == addr)) = none := by
  unfold ClearBreakpoint
  cases h : s.breakpoints.find? (fun d => d.address == addr) with
  | none => exact h
  | some d => exact bp_find_filter addr s.breakpoints

/-- C5: `ClearBreakpoint` on an address with no recorded breakpoint
returns the typed `notFound` failure and leaves the engine state — guest
memory included — unchanged; and re-clearing after any clear is such a
no-op, since a clear leaves no descriptor at the address. -/
theorem c5_clear_nonexistent_noop :
    (∀ (addr : Nat) (s : BpEngineState),
      s.breakpoints.find? (fun d => d.address == addr) = none →
      ClearBreakpoint addr s = (BpResult.notFound, s)) ∧
    (∀ (addr : Nat) (s : BpEngineState),
      ClearBreakpoint addr (ClearBreakpoint addr s).2 =
        (BpResult.notFound, (ClearBreakpoint addr s).2)) := by
  have hclear : ∀ (addr : Nat) (s : BpEngineState),
      s.breakpoints.find? (fun d => d.address == addr) = none →
      ClearBreakpoint addr s = (BpResult.notFound, s) := by
    intro addr s h
    unfold ClearBreakpoint
    rw [h]
  exact ⟨hclear, fun addr s =>
    hclear addr (ClearBreakpoint addr s).2 (clearBreakpoint_find_none addr s)⟩

/-- C5 (witness): the theorem's first conjunct at a concrete
breakpoint-free engine state. -/
theorem c5_clear_nonexistent_noop_witness :
    ClearBreakpoint 7 bpSample = (BpResult.notFound, bpSample) :=
  c5_clear_nonexistent_noop.1 7 bpSample rfl

/-! Claim C6 (EPT manager, modelled from the spec). -/

/-- Helper: after filtering out every saved entry keyed `gpa`, none is
found at `gpa`. -/
theorem ept_saved_find_filter (gpa : Nat) (l : List (Nat × AccessRights)) :
    ((l.filter (fun p => p.1 != gpa)).find? (fun p => p.1 == gpa)) = none := by
  rw [List.find?_eq_none]
  intro x hx
  rw [List.mem_filter] at hx
  simpa using hx.2

/-- Helper: a `HookPage` step preserves the saved-rights invariant —
either the page is unhooked and carries its original rights, or its
original rights are recorded in the hierarchy's saved state. -/
theorem hookPage_step (gpa : Nat) (m : HookMode) (r₀ : AccessRights)
    (s : EptState)
    (h : (s.lookupSaved gpa = none ∧ s.rights gpa = r₀) ∨
         s.lookupSaved gpa = some r₀) :
    ((HookPage gpa m s).lookupSaved gpa = none ∧
     (HookPage gpa m s).rights gpa = r₀) ∨
      (HookPage gpa m s).lookupSaved gpa = some r₀ := by
  right
  cases h with
  | inl h1 =>
    unfold HookPage
    rw [h1.1]
    unfold EptState.lookupSaved
    simp [List.find?, h1.2]
  | inr h1 =>
    unfold HookPage
    rw [h1]
    exact h1

/-- Helper: after an `UnhookPage` step on a page satisfying the
saved-rights invariant, the page is unhooked and carries its original
rights. -/
theorem unhookPage_step (gpa : Nat) (r₀ : AccessRights) (s : EptState)
    (h : (s.lookupSaved gpa = none ∧ s.rights gpa = r₀) ∨
         s.lookupSaved gpa = some r₀) :
    (UnhookPage gpa s).lookupSaved gpa = none ∧
      (UnhookPage gpa s).rights gpa = r₀ := by
  cases h with
  | inl h1 =>
    unfold UnhookPage
    rw [h1.1]
    exact h1
  | inr h1 =>
    unfold UnhookPage
    rw [h1]
    refine ⟨?_, by simp⟩
    unfold EptState.lookupSaved
    simp [ept_saved_find_filter]

/-- Helper: any sequence of hook/unhook calls on one address preserves the
saved-rights invariant. -/
theorem runEptOps_invariant (gpa : Nat) (r₀ : AccessRights)
    (ops : List EptOp) :
    ∀ s : EptState,
      ((s.lookupSaved gpa = none ∧ s.rights gpa = r₀) ∨
       s.lookupSaved gpa = some r₀) →
      ((runEptOps gpa ops s).lookupSaved gpa = none ∧
       (runEptOps gpa ops s).rights gpa = r₀) ∨
        (runEptOps gpa ops s).lookupSaved gpa = some r₀ := by
  induction ops with
  | nil => intro s h; exact h
  | cons op t ih =>
    intro s h
    cases op with
    | hook m => exact ih (HookPage gpa m s) (hookPage_step gpa m r₀ s h)
    | unhook =>
      exact ih (UnhookPage gpa s) (Or.inl (unhookPage_step gpa r₀ s h))

/-- C6: for every sequence of `HookPage`/`UnhookPage` calls on one
guest-physical address starting from an unhooked page, the access rights
after the final matching `UnhookPage` equal the rights that held before
the first hook, and the page is no longer recorded in the hierarchy's
saved state. -/
theorem c6_hook_unhook_roundtrip (gpa : Nat) (ops : List EptOp)
    (s : EptState) (h : s.lookupSaved gpa = none) :
    (runEptOps gpa (ops ++ [EptOp.unhook]) s).rights gpa = s.rights gpa ∧
    (runEptOps gpa (ops ++ [EptOp.unhook]) s).lookupSaved gpa = none := by
  have hfold : runEptOps gpa (ops ++ [EptOp.unhook]) s =
      UnhookPage gpa (runEptOps gpa ops s) := by
    unfold runEptOps
    rw [List.foldl_append]
    rfl
  have hinv := runEptOps_invariant gpa (s.rights gpa) ops s (Or.inl ⟨h, rfl⟩)
  have hstep := unhookPage_step gpa (s.rights gpa) (runEptOps gpa ops s) hinv
  rw [hfold]
  exact ⟨hstep.2, hstep.1⟩

/-- Full-access rights, the identity-map default. -/
def fullAccess : AccessRights :=
  { readAccess := true, writeAccess := true, executeAccess := true }

/-- A sample EPT state: identity map, full access everywhere, nothing
hooked. -/
def eptSample : EptState :=
  { rights := fun _ => fullAccess, savedRights := [] }

/-- C6 (witness): the theorem at a concrete address, a concrete
double-hook sequence, and the sample identity-mapped EPT state. -/
theorem c6_hook_unhook_roundtrip_witness :
    (runEptOps 5 ([EptOp.hook HookMode.executeTrap,
       EptOp.hook HookMode.writeTrap] ++ [EptOp.unhook]) eptSample).rights 5 =
      eptSample.rights 5 ∧
    (runEptOps 5 ([EptOp.hook HookMode.executeTrap,
       EptOp.hook HookMode.writeTrap] ++ [EptOp.unhook]) eptSample).lookupSaved 5
      = none :=
  c6_hook_unhook_roundtrip 5
    [EptOp.hook HookMode.executeTrap, EptOp.hook HookMode.writeTrap]
    eptSample rfl

/-! Claim C7 (event/hook registry, modelled from the spec). -/

/-- Helper: `Register` preserves key uniqueness of the registry. -/
theorem register_preserves_unique (cond : HookCondition)
    (action : HookAction) (scope : HookScope) (r : HookRegistry)
    (h : r.uniquePerKey) :
    ((Register cond action scope r).2).uniquePerKey := by
  unfold Register
  by_cases hk : r.hasKey cond scope
  · simpa [hk] using h
  · simp only [hk, Bool.false_eq_true, if_false]
    unfold HookRegistry.uniquePerKey at h ⊢
    refine List.Pairwise.cons ?_ h
    intro b hb
    by_contra hcon
    push_neg at hcon
    apply hk
    unfold HookRegistry.hasKey
    rw [List.any_eq_true]
    exact ⟨b, hb, decide_eq_true ⟨hcon.1.symm, hcon.2.symm⟩⟩

/-- C7: a `Register` call whose (condition, scope) pair is already present
is rejected (`none`) and leaves the registry unchanged; consequently,
after any sequence of `Register` calls starting from the empty registry,
no two entries share their (condition, scope) pair — exactly one entry per
registered pair. -/
theorem c7_registry_unique_per_key :
    (∀ (cond : HookCondition) (action : HookAction) (scope : HookScope)
       (r : HookRegistry),
      r.hasKey cond scope = true →
      Register cond action scope r = (none, r)) ∧
    (∀ reqs : List (HookCondition × HookAction × HookScope),
      (runRegisters reqs emptyRegistry).uniquePerKey) := by
  constructor
  · intro cond action scope r h
    unfold Register
    rw [h]
    rfl
  · have hrun : ∀ (reqs : List (HookCondition × HookAction × HookScope))
        (r : HookRegistry), r.uniquePerKey →
        (runRegisters reqs r).uniquePerKey := by
      intro reqs
      induction reqs with
      | nil => intro r h; exact h
      | cons q t ih =>
        intro r h
        exact ih (Register q.1 q.2.1 q.2.2 r).2
          (register_preserves_unique q.1 q.2.1 q.2.2 r h)
    intro reqs
    exact hrun reqs emptyRegistry List.Pairwise.nil

/-- A sample registry holding one hook entry. -/
def regSample : HookRegistry :=
  { entries := [{ hookId := 0, condition := { exitReason := 31, qualifier := 0 },
                  action := HookAction.log, scope := HookScope.globalScope }],
    nextHookId := 1 }

/-- C7 (witness): the theorem's first conjunct at a concrete duplicate
registration against the sample registry. -/
theorem c7_registry_unique_per_key_witness :
    Register { exitReason := 31, qualifier := 0 } HookAction.breakToDebugger
      HookScope.globalScope regSample = (none, regSample) :=
  c7_registry_unique_per_key.1 { exitReason := 31, qualifier := 0 }
    HookAction.breakToDebugger HookScope.globalScope regSample (by decide)

end HyperDbg
